import Mathlib

/-!
Shallow embedding of `src/app.py` (a Streamlit single-page LLM front end).

The program consists of
* a fixed dictionary `EXPERT_PROFILES` mapping persona display names to
  system-prompt strings;
* a module-level startup block that constructs the external API client
  (`ChatOpenAI(...)`) inside `try/except`, showing an error and stopping the
  script on failure;
* a function `get_llm_response(user_question, expert_profile_key)` decorated
  with `@st.cache_data` that looks up the persona's system prompt, builds the
  two-message prompt `[SystemMessage(system_message), HumanMessage(user_question)]`,
  calls `llm.invoke(messages)` and returns `result.content`;
* a button handler that validates non-emptiness of the question (Python string
  truthiness), calls `get_llm_response` inside `try/except`, and renders either
  the answer or an error message plus a placeholder answer.

The external LLM API is modelled as an explicit oracle parameter
`api : List Message → Except ApiError LLMResult`; the `@st.cache_data`
memoization is modelled as explicit cache state threaded through calls
(Streamlit's `st.cache_data` stores only results of calls that return
normally; a call that raises stores nothing).  Every modelled operation also
returns the list of prompts submitted to the external API, so that claims
about the number of external calls can be stated.
-/

set_option autoImplicit false

namespace App

/-- Message roles as they appear on the wire: `SystemMessage` carries role
`system`, `HumanMessage` carries role `user`. -/
inductive Role where
  | system
  | user
deriving DecidableEq, Repr

/-- One role-tagged chat message (`SystemMessage` / `HumanMessage` in the
source). -/
structure Message where
  role : Role
  content : String
deriving DecidableEq, Repr

/-- The completion object returned by `llm.invoke`; the source extracts
`result.content`. -/
structure LLMResult where
  content : String
deriving DecidableEq, Repr

/-- An external API failure, carrying the Python exception's type name
(`type(e).__name__`) and its message (`str(e)`). -/
structure ApiError where
  typeName : String
  message : String
deriving DecidableEq, Repr

/-- The failures `get_llm_response` can raise: a `KeyError` from the dictionary
lookup `EXPERT_PROFILES[expert_profile_key]` (the spec's `UnknownPersonaError`),
or an exception propagated from the external API call (the spec's
`ExternalServiceError`). -/
inductive AppError where
  | keyError (key : String)
  | external (e : ApiError)
deriving DecidableEq, Repr

/-- `type(e).__name__` for a modelled failure. -/
def AppError.typeName : AppError → String
  | .keyError _ => "KeyError"
  | .external e => e.typeName

/-- `str(e)` for a modelled failure.  Python renders `str(KeyError(k))` as the
repr of the key, i.e. the key wrapped in single quotes. -/
def AppError.message : AppError → String
  | .keyError k => "\x27" ++ k ++ "\x27"
  | .external e => e.message

/-- The persona dictionary of `app.py`, as an insertion-ordered association
list (Python dicts preserve insertion order). -/
def EXPERT_PROFILES : List (String × String) :=
  [("テック系ジャーナリスト",
    "あなたは最新のITトレンド、ガジェット、科学技術に非常に詳しいテック系ジャーナリストです。回答は最新の情報に基づいて、エキサイティングで簡潔な口調で提供してください。回答は必ず日本語で行ってください。"),
   ("歴史学者",
    "あなたは古代から現代までの歴史、文化、年号に精通した厳格な歴史学者です。回答は客観的な事実に基づき、情報の出典（例：紀元前100年頃、〇〇史によると）を明確にしながら、正確で丁寧な口調で提供してください。回答は必ず日本語で行ってください。"),
   ("ビジネスコンサルタント",
    "あなたは市場戦略、組織改革、効率化の専門知識を持つビジネスコンサルタントです。回答は構造化され（箇条書きなどを活用）、実用的で、ビジネス課題の解決に役立つ具体的なアクションプランを中心に提供してください。回答は必ず日本語で行ってください。")]

/-- First-match association-list lookup (Python dict lookup). -/
def lookupProfile : List (String × String) → String → Option String
  | [], _ => none
  | (name, prompt) :: rest, k =>
      if name = k then some prompt else lookupProfile rest k

/-- The expression `EXPERT_PROFILES[expert_profile_key]` of `app.py`, which
raises `KeyError` when the key is absent.  This is the spec's
`Registry.getSystemPrompt`. -/
def getSystemPrompt (k : String) : Except AppError String :=
  match lookupProfile EXPERT_PROFILES k with
  | some p => Except.ok p
  | none => Except.error (AppError.keyError k)

/-- The `@st.cache_data` store: a mapping from the argument pair
`(user_question, expert_profile_key)` to the previously returned string. -/
abbrev Cache := List ((String × String) × String)

/-- Cache lookup keyed on the exact argument pair. -/
def cacheLookup : Cache → String → String → Option String
  | [], _, _ => none
  | (key, v) :: rest, q, k =>
      if key = (q, k) then some v else cacheLookup rest q k

/-- Cache insertion after a call that returned normally. -/
def cacheInsert (c : Cache) (q k v : String) : Cache :=
  ((q, k), v) :: c

/-- The two-message prompt built in the body of `get_llm_response`:
`[SystemMessage(content=system_message), HumanMessage(content=user_question)]`. -/
def buildMessages (system_message user_question : String) : List Message :=
  [⟨Role.system, system_message⟩, ⟨Role.user, user_question⟩]

/-- The undecorated body of `get_llm_response`: dictionary lookup, prompt
construction, `llm.invoke`, `result.content`.  Returns the raised-or-returned
outcome together with the list of prompts submitted to the external API. -/
def get_llm_response_body (api : List Message → Except ApiError LLMResult)
    (user_question expert_profile_key : String) :
    Except AppError String × List (List Message) :=
  match getSystemPrompt expert_profile_key with
  | Except.error e => (Except.error e, [])
  | Except.ok system_message =>
      let messages := buildMessages system_message user_question
      match api messages with
      | Except.error e => (Except.error (AppError.external e), [messages])
      | Except.ok result => (Except.ok result.content, [messages])

/-- Outcome of one invocation of the memoized `get_llm_response`: the value
returned or exception raised, the cache state after the call, and the prompts
submitted to the external API during the call. -/
structure CallResult where
  result : Except AppError String
  cache : Cache
  requests : List (List Message)
deriving Repr

/-- `get_llm_response` with its `@st.cache_data` decorator: on a hit for the
exact argument pair the stored value is returned with no external call; on a
miss the body runs, and only a normal return is stored. -/
def get_llm_response (api : List Message → Except ApiError LLMResult)
    (cache : Cache) (user_question expert_profile_key : String) : CallResult :=
  match cacheLookup cache user_question expert_profile_key with
  | some v => ⟨Except.ok v, cache, []⟩
  | none =>
      match get_llm_response_body api user_question expert_profile_key with
      | (Except.ok v, reqs) =>
          ⟨Except.ok v, cacheInsert cache user_question expert_profile_key v, reqs⟩
      | (Except.error e, reqs) => ⟨Except.error e, cache, reqs⟩

/-- The `st.error` text of the button handler:
`f"LLMの実行中にエラーが発生しました: {type(e).__name__} - {e}"`. -/
def errorDisplay (e : AppError) : String :=
  "LLMの実行中にエラーが発生しました: " ++ e.typeName ++ " - " ++ e.message

/-- The placeholder assigned to `llm_response_content` when the call raises. -/
def failurePlaceholder : String :=
  "回答の取得に失敗しました。詳細なエラーは上記メッセージを確認してください。"

/-- The `st.warning` text shown for an empty question. -/
def emptyQuestionWarning : String := "質問内容を入力してください。"

/-- What one activation of the "回答を生成" button produced: whether the
validation warning was shown, the arguments `get_llm_response` was invoked
with (if it was), the `st.error` text (if any), the text rendered via
`st.info` (if any), the cache state afterwards, and the prompts submitted to
the external API. -/
structure HandlerOutcome where
  warning : Option String
  invoked : Option (String × String)
  errorBox : Option String
  rendered : Option String
  cache : Cache
  requests : List (List Message)
deriving Repr

/-- The button handler of `app.py` (lines 109-127): `if user_input:` (Python
string truthiness, i.e. non-emptiness) guards the call; the call runs inside
`try/except Exception`; the except branch shows `st.error` and substitutes the
placeholder; `st.info` then renders `llm_response_content`; the `else` branch
shows the validation warning. -/
def button_handler (api : List Message → Except ApiError LLMResult)
    (cache : Cache) (user_input selected_expert : String) : HandlerOutcome :=
  if user_input = "" then
    ⟨some emptyQuestionWarning, none, none, none, cache, []⟩
  else
    match get_llm_response api cache user_input selected_expert with
    | ⟨Except.ok t, c2, reqs⟩ =>
        ⟨none, some (user_input, selected_expert), none, some t, c2, reqs⟩
    | ⟨Except.error e, c2, reqs⟩ =>
        ⟨none, some (user_input, selected_expert), some (errorDisplay e),
          some failurePlaceholder, c2, reqs⟩

/-- The elements the Streamlit script emits to the page, in execution order. -/
inductive UIElem where
  | pageConfig (pageTitle : String)
  | titleText (text : String)
  | errorBox (text : String)
  | markdown (text : String)
  | sidebarHeader (text : String)
  | radio (label : String) (options : List String)
  | sidebarInfo (text : String)
  | textArea (label : String)
  | button (label : String)
deriving DecidableEq, Repr

/-- Whether a page element is an input widget (accepts user input). -/
def UIElem.isInputWidget : UIElem → Bool
  | .radio _ _ => true
  | .textArea _ => true
  | .button _ => true
  | _ => false

/-- The page title passed to `st.set_page_config`. -/
def pageTitleText : String := "専門家LLMアプリ"

/-- The `st.title` text. -/
def appTitle : String := "👨‍💼 専門家パーソナリティ選択型LLMアプリ"

/-- The `st.error` text shown when constructing `ChatOpenAI` raises:
`f"OpenAIモデルの初期化に失敗しました。APIキーを確認してください: {e}"`. -/
def configErrorMessage (e : ApiError) : String :=
  "OpenAIモデルの初期化に失敗しました。APIキーを確認してください: " ++ e.message

/-- The `st.markdown` overview block. -/
def appOverview : String :=
  "\n### アプリケーションの概要\nこのWebアプリは、ユーザーが選択した**専門家（ペルソナ）**の視点に基づいて、質問に回答するLLM（大規模言語モデル）インターフェースです。質問の内容に合わせて専門家を切り替えることで、多角的な視点からの情報を得ることができます。\n\n### 操作方法\n1.  **左側のサイドバー**で、回答してほしい専門家（テック系ジャーナリスト、歴史学者、ビジネスコンサルタント）をラジオボタンで選択します。\n2.  中央のテキストエリアに質問を入力します。\n3.  「**回答を生成**」ボタンをクリックすると、選択した専門家のシステムメッセージがLLMに渡され、そのペルソナに基づいた回答が表示されます。\n"

/-- The page elements emitted up to (and including) the input widgets, as a
function of whether constructing the API client at startup succeeded
(`try: llm = ChatOpenAI(...) except: st.error(...); st.stop()`), together with
whether the script stopped at startup.  `st.set_page_config` and `st.title`
run before the `try` block; on failure `st.stop()` prevents everything after
the `st.error` call. -/
structure StartupOutcome where
  elems : List UIElem
  haltedAtStartup : Bool
deriving DecidableEq, Repr

/-- Module-level execution of `app.py` up to the input widgets. -/
def startupScript (clientInit : Except ApiError Unit) : StartupOutcome :=
  let pre : List UIElem := [UIElem.pageConfig pageTitleText, UIElem.titleText appTitle]
  match clientInit with
  | Except.error e => ⟨pre ++ [UIElem.errorBox (configErrorMessage e)], true⟩
  | Except.ok _ =>
      ⟨pre ++
        [UIElem.markdown appOverview,
         UIElem.sidebarHeader "専門家の選択",
         UIElem.radio "LLMに誰の振る舞いをさせますか？" (EXPERT_PROFILES.map Prod.fst),
         UIElem.sidebarInfo ("選択中の専門家: **テック系ジャーナリスト**"),
         UIElem.textArea "ここに質問を入力してください：",
         UIElem.button "回答を生成"], false⟩

/-- A concrete always-failing API oracle (e.g. no network). -/
def failingApi : List Message → Except ApiError LLMResult :=
  fun _ => Except.error ⟨"APIConnectionError", "Connection error."⟩

/-- A concrete always-succeeding API oracle. -/
def okApi : List Message → Except ApiError LLMResult :=
  fun _ => Except.ok ⟨"これは回答です。"⟩

/-- The registered system prompt of the tech-journalist persona. -/
def techJournalistPrompt : String :=
  "あなたは最新のITトレンド、ガジェット、科学技術に非常に詳しいテック系ジャーナリストです。回答は最新の情報に基づいて、エキサイティングで簡潔な口調で提供してください。回答は必ず日本語で行ってください。"

/-! ## Helper lemmas -/

theorem cacheLookup_insert_self (c : Cache) (q k v : String) :
    cacheLookup (cacheInsert c q k v) q k = some v := by
  simp [cacheInsert, cacheLookup]

theorem cacheLookup_insert_of_ne (c : Cache) (q k v q2 k2 : String)
    (h : (q, k) ≠ (q2, k2)) :
    cacheLookup (cacheInsert c q k v) q2 k2 = cacheLookup c q2 k2 := by
  simp only [cacheInsert, cacheLookup]
  rw [if_neg h]

theorem lookupProfile_eq_none (l : List (String × String)) (k : String)
    (h : k ∉ l.map Prod.fst) : lookupProfile l k = none := by
  induction l with
  | nil => rfl
  | cons p rest ih =>
      obtain ⟨name, prompt⟩ := p
      simp only [List.map_cons, List.mem_cons] at h
      push_neg at h
      simp only [lookupProfile]
      rw [if_neg fun hk => h.1 hk.symm]
      exact ih h.2

theorem body_of_unknown (api : List Message → Except ApiError LLMResult)
    (q k : String) (h : lookupProfile EXPERT_PROFILES k = none) :
    get_llm_response_body api q k = (Except.error (AppError.keyError k), []) := by
  unfold get_llm_response_body getSystemPrompt
  rw [h]

theorem body_of_known (api : List Message → Except ApiError LLMResult)
    (q k p : String) (h : lookupProfile EXPERT_PROFILES k = some p) :
    get_llm_response_body api q k =
      (match api (buildMessages p q) with
       | Except.error e => (Except.error (AppError.external e), [buildMessages p q])
       | Except.ok result => (Except.ok result.content, [buildMessages p q])) := by
  unfold get_llm_response_body getSystemPrompt
  rw [h]

theorem get_llm_response_hit (api : List Message → Except ApiError LLMResult)
    (c : Cache) (q k v : String) (h : cacheLookup c q k = some v) :
    get_llm_response api c q k = ⟨Except.ok v, c, []⟩ := by
  unfold get_llm_response
  rw [h]

theorem get_of_api_error (api : List Message → Except ApiError LLMResult)
    (c : Cache) (q k p : String) (e : ApiError)
    (hmiss : cacheLookup c q k = none)
    (hk : lookupProfile EXPERT_PROFILES k = some p)
    (hfail : api (buildMessages p q) = Except.error e) :
    get_llm_response api c q k =
      ⟨Except.error (AppError.external e), c, [buildMessages p q]⟩ := by
  unfold get_llm_response
  rw [hmiss, body_of_known api q k p hk, hfail]

theorem body_requests_le_one (api : List Message → Except ApiError LLMResult)
    (q k : String) : (get_llm_response_body api q k).2.length ≤ 1 := by
  unfold get_llm_response_body
  cases getSystemPrompt k with
  | error e => exact Nat.zero_le 1
  | ok p =>
      show (match api (buildMessages p q) with
            | Except.error e => (Except.error (AppError.external e), [buildMessages p q])
            | Except.ok result =>
                (Except.ok result.content, [buildMessages p q])).2.length ≤ 1
      cases api (buildMessages p q) with
      | error e => exact Nat.le_refl 1
      | ok r => exact Nat.le_refl 1

theorem get_requests_le_one (api : List Message → Except ApiError LLMResult)
    (c : Cache) (q k : String) :
    (get_llm_response api c q k).requests.length ≤ 1 := by
  unfold get_llm_response
  cases hc : cacheLookup c q k with
  | some w => exact Nat.zero_le 1
  | none =>
      rcases hb : get_llm_response_body api q k with ⟨res, reqs⟩
      have hlen := body_requests_le_one api q k
      rw [hb] at hlen
      cases res with
      | ok u => exact hlen
      | error e => exact hlen

theorem cacheLookup_after_ok (api : List Message → Except ApiError LLMResult)
    (c : Cache) (q k v : String)
    (h : (get_llm_response api c q k).result = Except.ok v) :
    cacheLookup (get_llm_response api c q k).cache q k = some v := by
  unfold get_llm_response at h ⊢
  cases hc : cacheLookup c q k with
  | some w =>
      rw [hc] at h
      have h2 : (Except.ok w : Except AppError String) = Except.ok v := h
      have hw : w = v := Except.ok.inj h2
      show cacheLookup c q k = some v
      rw [hc, hw]
  | none =>
      rw [hc] at h
      rcases hb : get_llm_response_body api q k with ⟨res, reqs⟩
      rw [hb] at h
      cases res with
      | ok u =>
          have h2 : (Except.ok u : Except AppError String) = Except.ok v := h
          have hu : u = v := Except.ok.inj h2
          show cacheLookup (cacheInsert c q k u) q k = some v
          rw [cacheLookup_insert_self, hu]
      | error e2 =>
          have h2 : (Except.error e2 : Except AppError String) = Except.ok v := h
          exact Except.noConfusion h2

theorem get_cache_of_error (api : List Message → Except ApiError LLMResult)
    (c : Cache) (q k : String) (e : AppError)
    (h : (get_llm_response api c q k).result = Except.error e) :
    (get_llm_response api c q k).cache = c := by
  unfold get_llm_response at h ⊢
  cases hc : cacheLookup c q k with
  | some w => rfl
  | none =>
      rw [hc] at h
      rcases hb : get_llm_response_body api q k with ⟨res, reqs⟩
      rw [hb] at h
      cases res with
      | ok u =>
          have h2 : (Except.ok u : Except AppError String) = Except.error e := h
          exact Except.noConfusion h2
      | error e2 => rfl

/-! ## Claim theorems -/

/-- C3: for every key `k` that is not one of the registered persona names,
`getSystemPrompt k` (the embedding of `EXPERT_PROFILES[k]`) fails with the
unknown-persona failure (`KeyError`), and hence `get_llm_response q k` (for
any question and any cache with no entry for the pair) fails with that same
failure rather than returning a prompt-derived answer. -/
theorem C3_unknown_persona_fails (q k : String)
    (api : List Message → Except ApiError LLMResult) (c : Cache)
    (hk : k ∉ EXPERT_PROFILES.map Prod.fst)
    (hmiss : cacheLookup c q k = none) :
    getSystemPrompt k = Except.error (AppError.keyError k) ∧
    (get_llm_response api c q k).result = Except.error (AppError.keyError k) := by
  have hl : lookupProfile EXPERT_PROFILES k = none :=
    lookupProfile_eq_none EXPERT_PROFILES k hk
  constructor
  · unfold getSystemPrompt
    rw [hl]
  · unfold get_llm_response
    rw [hmiss, body_of_unknown api q k hl]

/-- C3 witness: the concrete key "医者" is unregistered and fails as stated. -/
theorem C3_unknown_persona_fails_witness :
    ("医者" ∉ EXPERT_PROFILES.map Prod.fst ∧
      cacheLookup [] "量子コンピュータとは？" "医者" = none) ∧
    (getSystemPrompt "医者" = Except.error (AppError.keyError "医者") ∧
      (get_llm_response okApi [] "量子コンピュータとは？" "医者").result =
        Except.error (AppError.keyError "医者")) :=
  ⟨⟨by decide, rfl⟩,
    C3_unknown_persona_fails "量子コンピュータとは？" "医者" okApi [] (by decide) rfl⟩

/-- C10: for every question `q` and unregistered key `k`, `get_llm_response`
fails with the unknown-persona failure, submits no prompt to the external API
(so the two-message prompt is never sent), and leaves the memoization cache
unchanged. -/
theorem C10_unknown_persona_atomic
    (api : List Message → Except ApiError LLMResult) (c : Cache) (q k : String)
    (hk : k ∉ EXPERT_PROFILES.map Prod.fst)
    (hmiss : cacheLookup c q k = none) :
    (get_llm_response api c q k).result = Except.error (AppError.keyError k) ∧
    (get_llm_response api c q k).requests = [] ∧
    (get_llm_response api c q k).cache = c := by
  have hl : lookupProfile EXPERT_PROFILES k = none :=
    lookupProfile_eq_none EXPERT_PROFILES k hk
  unfold get_llm_response
  rw [hmiss, body_of_unknown api q k hl]
  exact ⟨rfl, rfl, rfl⟩

/-- C10 witness: concrete unregistered key "医者" on the empty cache. -/
theorem C10_unknown_persona_atomic_witness :
    ("医者" ∉ EXPERT_PROFILES.map Prod.fst ∧
      cacheLookup [] "歴史とは？" "医者" = none) ∧
    ((get_llm_response okApi [] "歴史とは？" "医者").result =
        Except.error (AppError.keyError "医者") ∧
      (get_llm_response okApi [] "歴史とは？" "医者").requests = [] ∧
      (get_llm_response okApi [] "歴史とは？" "医者").cache = []) :=
  ⟨⟨by decide, rfl⟩,
    C10_unknown_persona_atomic okApi [] "歴史とは？" "医者" (by decide) rfl⟩

/-- C4: the memoization cache is keyed on the pair (question, personaKey):
inserting a value for `(q, k1)` does not change what is stored for `(q, k2)`
when `k1 ≠ k2`, and a full `get_llm_response` call for `(q, k1)` leaves the
cache entry for `(q, k2)` untouched. -/
theorem C4_cache_keyed_on_pair
    (api : List Message → Except ApiError LLMResult) (c : Cache)
    (q k1 k2 v : String) (h : k1 ≠ k2) :
    cacheLookup (cacheInsert c q k1 v) q k2 = cacheLookup c q k2 ∧
    cacheLookup (get_llm_response api c q k1).cache q k2 = cacheLookup c q k2 := by
  have hne : (q, k1) ≠ (q, k2) := fun hp => h (congrArg Prod.snd hp)
  refine ⟨cacheLookup_insert_of_ne c q k1 v q k2 hne, ?_⟩
  unfold get_llm_response
  cases hc : cacheLookup c q k1 with
  | some w => rfl
  | none =>
      rcases hb : get_llm_response_body api q k1 with ⟨res, reqs⟩
      cases res with
      | ok u =>
          show cacheLookup (cacheInsert c q k1 u) q k2 = cacheLookup c q k2
          exact cacheLookup_insert_of_ne c q k1 u q k2 hne
      | error e => rfl

/-- C4 witness: concrete distinct registered keys with the same question. -/
theorem C4_cache_keyed_on_pair_witness :
    ("歴史学者" : String) ≠ "テック系ジャーナリスト" ∧
    (cacheLookup (cacheInsert [] "量子コンピュータとは？" "歴史学者" "回答A")
        "量子コンピュータとは？" "テック系ジャーナリスト" =
      cacheLookup [] "量子コンピュータとは？" "テック系ジャーナリスト" ∧
    cacheLookup
        (get_llm_response okApi [] "量子コンピュータとは？" "歴史学者").cache
        "量子コンピュータとは？" "テック系ジャーナリスト" =
      cacheLookup [] "量子コンピュータとは？" "テック系ジャーナリスト") :=
  ⟨by decide,
    C4_cache_keyed_on_pair okApi [] "量子コンピュータとは？" "歴史学者"
      "テック系ジャーナリスト" "回答A" (by decide)⟩

/-- C2: on a cache miss for a registered persona key `k` whose registry prompt
is `p`, `get_llm_response q k` submits exactly one prompt to the external API,
namely the ordered two-message list whose first message has role `system` with
content `p` and whose second message has role `user` with content `q`; and
when the API returns completion text `t`, the call returns exactly `t`. -/
theorem C2_prompt_construction
    (api : List Message → Except ApiError LLMResult) (c : Cache)
    (q k p t : String)
    (hmiss : cacheLookup c q k = none)
    (hk : lookupProfile EXPERT_PROFILES k = some p)
    (hok : api (buildMessages p q) = Except.ok ⟨t⟩) :
    (get_llm_response api c q k).requests =
      [[⟨Role.system, p⟩, ⟨Role.user, q⟩]] ∧
    (get_llm_response api c q k).result = Except.ok t := by
  unfold get_llm_response
  rw [hmiss, body_of_known api q k p hk, hok]
  exact ⟨rfl, rfl⟩

/-- C2 witness: the spec's end-to-end scenario, tech-journalist persona with
the question "量子コンピュータとは？" against a concrete succeeding oracle. -/
theorem C2_prompt_construction_witness :
    (cacheLookup [] "量子コンピュータとは？" "テック系ジャーナリスト" = none ∧
     lookupProfile EXPERT_PROFILES "テック系ジャーナリスト" =
       some techJournalistPrompt ∧
     okApi (buildMessages techJournalistPrompt "量子コンピュータとは？") =
       Except.ok ⟨"これは回答です。"⟩) ∧
    ((get_llm_response okApi [] "量子コンピュータとは？"
        "テック系ジャーナリスト").requests =
      [[⟨Role.system, techJournalistPrompt⟩,
        ⟨Role.user, "量子コンピュータとは？"⟩]] ∧
     (get_llm_response okApi [] "量子コンピュータとは？"
        "テック系ジャーナリスト").result = Except.ok "これは回答です。") :=
  ⟨⟨rfl, rfl, rfl⟩,
    C2_prompt_construction okApi [] "量子コンピュータとは？"
      "テック系ジャーナリスト" techJournalistPrompt "これは回答です。"
      rfl rfl rfl⟩

/-- C5: when the external API call fails, `get_llm_response` raises the
failure, leaves the cache exactly as it was (the failure is not cached), and a
subsequent identical call submits the same prompt to the external API again
(rather than returning a cached failure). -/
theorem C5_failure_not_cached
    (api : List Message → Except ApiError LLMResult) (c : Cache)
    (q k p : String) (e : ApiError)
    (hmiss : cacheLookup c q k = none)
    (hk : lookupProfile EXPERT_PROFILES k = some p)
    (hfail : api (buildMessages p q) = Except.error e) :
    get_llm_response api c q k =
      ⟨Except.error (AppError.external e), c, [buildMessages p q]⟩ ∧
    get_llm_response api (get_llm_response api c q k).cache q k =
      ⟨Except.error (AppError.external e), c, [buildMessages p q]⟩ := by
  have h1 := get_of_api_error api c q k p e hmiss hk hfail
  refine ⟨h1, ?_⟩
  rw [h1]
  exact get_of_api_error api c q k p e hmiss hk hfail

/-- C5 witness: historian persona against a concrete failing oracle. -/
theorem C5_failure_not_cached_witness :
    (cacheLookup [] "関ヶ原の戦いとは？" "歴史学者" = none ∧
     lookupProfile EXPERT_PROFILES "歴史学者" =
       some (EXPERT_PROFILES.get ⟨1, by decide⟩).2 ∧
     failingApi (buildMessages (EXPERT_PROFILES.get ⟨1, by decide⟩).2
        "関ヶ原の戦いとは？") =
       Except.error ⟨"APIConnectionError", "Connection error."⟩) ∧
    (get_llm_response failingApi [] "関ヶ原の戦いとは？" "歴史学者" =
      ⟨Except.error (AppError.external
          ⟨"APIConnectionError", "Connection error."⟩), [],
        [buildMessages (EXPERT_PROFILES.get ⟨1, by decide⟩).2 "関ヶ原の戦いとは？"]⟩ ∧
     get_llm_response failingApi
        (get_llm_response failingApi [] "関ヶ原の戦いとは？" "歴史学者").cache
        "関ヶ原の戦いとは？" "歴史学者" =
      ⟨Except.error (AppError.external
          ⟨"APIConnectionError", "Connection error."⟩), [],
        [buildMessages (EXPERT_PROFILES.get ⟨1, by decide⟩).2 "関ヶ原の戦いとは？"]⟩) :=
  ⟨⟨rfl, rfl, rfl⟩,
    C5_failure_not_cached failingApi [] "関ヶ原の戦いとは？" "歴史学者"
      (EXPERT_PROFILES.get ⟨1, by decide⟩).2
      ⟨"APIConnectionError", "Connection error."⟩ rfl rfl rfl⟩

/-- C1 (as stated) is refuted: with an always-failing external API, two calls
of `get_llm_response` with the identical pair issue two external API calls,
because the first call's failure is not cached; "at most one external API
call" does not hold unconditionally. -/
theorem C1_counterexample :
    ¬ ((get_llm_response failingApi [] "量子コンピュータとは？"
          "テック系ジャーナリスト").requests.length +
       (get_llm_response failingApi
          (get_llm_response failingApi [] "量子コンピュータとは？"
            "テック系ジャーナリスト").cache
          "量子コンピュータとは？" "テック系ジャーナリスト").requests.length ≤ 1) := by
  decide

/-- C1 (amended): for every question, registered or not, and every cache
state, provided the first call returns normally (with value `v`), calling
`get_llm_response` twice with the identical pair issues at most one external
API call in total, and the second call returns a value equal to the first
call's result. -/
theorem C1_memoized_second_call
    (api : List Message → Except ApiError LLMResult) (c : Cache)
    (q k v : String)
    (h : (get_llm_response api c q k).result = Except.ok v) :
    (get_llm_response api c q k).requests.length +
      (get_llm_response api (get_llm_response api c q k).cache q k).requests.length
      ≤ 1 ∧
    (get_llm_response api (get_llm_response api c q k).cache q k).result =
      (get_llm_response api c q k).result := by
  have hcl := cacheLookup_after_ok api c q k v h
  have h2 := get_llm_response_hit api (get_llm_response api c q k).cache q k v hcl
  rw [h2]
  constructor
  · show (get_llm_response api c q k).requests.length + 0 ≤ 1
    rw [Nat.add_zero]
    exact get_requests_le_one api c q k
  · show Except.ok v = (get_llm_response api c q k).result
    exact h.symm

/-- C1 witness: the amended memoization property at a concrete succeeding
oracle and the tech-journalist persona. -/
theorem C1_memoized_second_call_witness :
    ((get_llm_response okApi [] "量子コンピュータとは？"
        "テック系ジャーナリスト").result = Except.ok "これは回答です。") ∧
    ((get_llm_response okApi [] "量子コンピュータとは？"
        "テック系ジャーナリスト").requests.length +
      (get_llm_response okApi
        (get_llm_response okApi [] "量子コンピュータとは？"
          "テック系ジャーナリスト").cache
        "量子コンピュータとは？" "テック系ジャーナリスト").requests.length ≤ 1 ∧
     (get_llm_response okApi
        (get_llm_response okApi [] "量子コンピュータとは？"
          "テック系ジャーナリスト").cache
        "量子コンピュータとは？" "テック系ジャーナリスト").result =
       (get_llm_response okApi [] "量子コンピュータとは？"
          "テック系ジャーナリスト").result) :=
  ⟨rfl,
    C1_memoized_second_call okApi [] "量子コンピュータとは？"
      "テック系ジャーナリスト" "これは回答です。" rfl⟩

/-- C6: activating the trigger with the empty question string shows the
validation warning, does not invoke `get_llm_response`, submits nothing to the
external API, mutates no cache state, and renders no response. -/
theorem C6_empty_question_warning
    (api : List Message → Except ApiError LLMResult) (c : Cache) (k : String) :
    button_handler api c "" k =
      ⟨some emptyQuestionWarning, none, none, none, c, []⟩ := by
  unfold button_handler
  rw [if_pos rfl]

/-- C9: the handler's validation rejects only the exactly-empty string: for
every non-empty question, in particular one consisting solely of whitespace,
activation invokes `get_llm_response` with the question forwarded verbatim and
shows no validation warning. -/
theorem C9_whitespace_forwarded
    (api : List Message → Except ApiError LLMResult) (c : Cache)
    (q k : String)
    (hws : q.data.all Char.isWhitespace = true)
    (hne : q ≠ "") :
    (button_handler api c q k).warning = none ∧
    (button_handler api c q k).invoked = some (q, k) := by
  unfold button_handler
  rw [if_neg hne]
  rcases get_llm_response api c q k with ⟨res, c2, reqs⟩
  cases res with
  | ok t => exact ⟨rfl, rfl⟩
  | error e => exact ⟨rfl, rfl⟩

/-- C9 witness: the single-space question is forwarded verbatim. -/
theorem C9_whitespace_forwarded_witness :
    (" ".data.all Char.isWhitespace = true ∧ (" " : String) ≠ "") ∧
    ((button_handler okApi [] " " "歴史学者").warning = none ∧
     (button_handler okApi [] " " "歴史学者").invoked = some (" ", "歴史学者")) :=
  ⟨⟨by decide, by decide⟩,
    C9_whitespace_forwarded okApi [] " " "歴史学者" (by decide) (by decide)⟩

/-- C7: whenever `get_llm_response` raises, the handler shows the error box
whose text embeds the failure's type name and message, renders the generic
failure placeholder instead of an answer, shows no validation warning, leaves
the cache unchanged (so it does not fall back to or corrupt cached state), and
made at most the one original external API attempt (no retry). -/
theorem C7_error_surfacing
    (api : List Message → Except ApiError LLMResult) (c : Cache)
    (q k : String) (e : AppError)
    (hne : q ≠ "")
    (herr : (get_llm_response api c q k).result = Except.error e) :
    (button_handler api c q k).errorBox = some (errorDisplay e) ∧
    (∃ s t, errorDisplay e = s ++ AppError.typeName e ++ t) ∧
    (∃ s, errorDisplay e = s ++ AppError.message e) ∧
    (button_handler api c q k).rendered = some failurePlaceholder ∧
    (button_handler api c q k).warning = none ∧
    (button_handler api c q k).cache = c ∧
    (button_handler api c q k).requests.length ≤ 1 := by
  have hcache := get_cache_of_error api c q k e herr
  have hreq := get_requests_le_one api c q k
  unfold button_handler
  rw [if_neg hne]
  rcases hcall : get_llm_response api c q k with ⟨res, c2, reqs⟩
  rw [hcall] at herr hcache hreq
  cases res with
  | ok t =>
      have h2 : (Except.ok t : Except AppError String) = Except.error e := herr
      exact Except.noConfusion h2
  | error e2 =>
      have h2 : (Except.error e2 : Except AppError String) = Except.error e := herr
      have he : e2 = e := Except.error.inj h2
      subst he
      refine ⟨rfl, ?_, ?_, rfl, rfl, hcache, hreq⟩
      · exact ⟨"LLMの実行中にエラーが発生しました: ",
          " - " ++ AppError.message e2,
          (String.append_assoc _ " - " _).symm ▸ rfl⟩
      · exact ⟨"LLMの実行中にエラーが発生しました: " ++
          AppError.typeName e2 ++ " - ", rfl⟩

/-- C7 witness: a concrete failing external call through the handler. -/
theorem C7_error_surfacing_witness :
    (("テスト" : String) ≠ "" ∧
     (get_llm_response failingApi [] "テスト" "ビジネスコンサルタント").result =
       Except.error (AppError.external ⟨"APIConnectionError", "Connection error."⟩)) ∧
    ((button_handler failingApi [] "テスト" "ビジネスコンサルタント").errorBox =
       some (errorDisplay
         (AppError.external ⟨"APIConnectionError", "Connection error."⟩)) ∧
     (∃ s t, errorDisplay
         (AppError.external ⟨"APIConnectionError", "Connection error."⟩) =
       s ++ AppError.typeName
         (AppError.external ⟨"APIConnectionError", "Connection error."⟩) ++ t) ∧
     (∃ s, errorDisplay
         (AppError.external ⟨"APIConnectionError", "Connection error."⟩) =
       s ++ AppError.message
         (AppError.external ⟨"APIConnectionError", "Connection error."⟩)) ∧
     (button_handler failingApi [] "テスト" "ビジネスコンサルタント").rendered =
       some failurePlaceholder ∧
     (button_handler failingApi [] "テスト" "ビジネスコンサルタント").warning = none ∧
     (button_handler failingApi [] "テスト" "ビジネスコンサルタント").cache = [] ∧
     (button_handler failingApi [] "テスト" "ビジネスコンサルタント").requests.length ≤ 1) :=
  ⟨⟨by decide, rfl⟩,
    C7_error_surfacing failingApi [] "テスト" "ビジネスコンサルタント"
      (AppError.external ⟨"APIConnectionError", "Connection error."⟩)
      (by decide) rfl⟩

/-- C8 (as stated) is refuted: on a failing client construction the script
does halt at startup with the configuration error message, but UI has already
been rendered before the halt — the page title element appears among the
emitted elements of the failing run. -/
theorem C8_counterexample :
    (startupScript (Except.error
        ⟨"ValidationError", "OPENAI_API_KEY not set"⟩)).haltedAtStartup = true ∧
    UIElem.titleText appTitle ∈
      (startupScript (Except.error
        ⟨"ValidationError", "OPENAI_API_KEY not set"⟩)).elems := by
  refine ⟨rfl, ?_⟩
  simp [startupScript]

/-- C8 (amended): when constructing the API client fails at startup, the
script halts at startup, emitting exactly the page configuration, the page
title, and the configuration error message — in particular no input widget is
rendered and no user input is accepted before the halt (though the title UI is
rendered before it). -/
theorem C8_startup_halt (e : ApiError) :
    startupScript (Except.error e) =
      ⟨[UIElem.pageConfig pageTitleText, UIElem.titleText appTitle,
        UIElem.errorBox (configErrorMessage e)], true⟩ ∧
    ((startupScript (Except.error e)).elems.all
      fun el => !el.isInputWidget) = true :=
  ⟨rfl, rfl⟩

end App
